import Mathlib

/-!
Shallow embedding of the call-lifecycle state machine implemented in
`src/app/page.tsx` (a browser voice-call page over a PeerJS transport).

The React component keeps its mutable state in refs
(`callRef`, `localStreamRef`, `audioContextRef`, `analyserRef`,
`animationFrameRef`, `peerRef`) and React state (`status`, `statusMessage`,
`micLevel`, `remoteId`).  We model this as a record `AppState`, opaque
resource handles as natural-number ids (allocated from a `nextId` counter),
and each operation of the component as a pure function
`AppState → AppState × List Event`, where the event list records, in order,
the externally visible side effects the operation performs (status updates,
transport calls, handle closes, resource releases, frame scheduling).
Environment-dependent outcomes (`getUserMedia`, AudioContext support,
analyser reads) are passed in via `MediaEnv`.
-/

namespace VoicePage

/-- The `CallStatus` union type of the source. -/
inductive CallStatus
  | initializing
  | ready
  | calling
  | inCall
  | incoming
  | error
deriving DecidableEq, Repr

/-- A PeerJS `MediaConnection` handle: an opaque identity plus its `.peer`
remote-identifier field. -/
structure MediaConnection where
  hid : Nat
  peer : String
deriving DecidableEq, Repr

/-- Externally visible side effects, in the order the code performs them. -/
inductive Event
  | statusSet (st : CallStatus) (msg : String)
  | closeCall (c : MediaConnection)
  | registerHandlers (c : MediaConnection)
  | transportCall (remote : String) (stream : Nat) (c : MediaConnection)
  | answerCall (c : MediaConnection) (stream : Nat)
  | stopTracks (stream : Nat)
  | closeAudioContext (ctx : Nat)
  | disconnectAnalyser (a : Nat)
  | cancelFrame (f : Nat)
  | scheduleFrame (f : Nat)
  | reconnect
deriving DecidableEq, Repr

/-- The component's mutable state: one field per ref / React state cell.
`subscribed` tracks which call handles currently have live stream/close/error
subscriptions (a handle is removed when it is closed), and `pendingFrames`
tracks outstanding animation-frame callbacks; both exist only to state
the at-most-one invariants and are updated exactly where the code closes
handles and schedules/cancels frames. -/
structure AppState where
  callRef : Option MediaConnection
  localStreamRef : Option Nat
  audioContextRef : Option Nat
  analyserRef : Option Nat
  animationFrameRef : Option Nat
  peerRef : Option Nat
  remoteId : String
  status : CallStatus
  statusMessage : String
  micLevel : Int
  remoteAudioSrc : Option Nat
  localAudioSrc : Option Nat
  subscribed : List MediaConnection
  pendingFrames : List Nat
  nextId : Nat
deriving DecidableEq, Repr

/-- Environment inputs consumed during one operation: the outcome of
`navigator.mediaDevices.getUserMedia` (error message on failure), whether an
`AudioContext` constructor exists, and the byte values the analyser delivers
to `getByteFrequencyData`. -/
structure MediaEnv where
  gum : Except String Unit
  audioCtxSupported : Bool
  analyserData : List Nat
deriving Repr

/-- JavaScript `String.prototype.trim`: strip leading and trailing
whitespace.  (Defined structurally over the character list so that it
evaluates by kernel reduction.) -/
def jsTrim (str : String) : String :=
  String.mk
    (((str.data.dropWhile Char.isWhitespace).reverse.dropWhile
        Char.isWhitespace).reverse)

/-- `analyser.fftSize = 256` in the source. -/
def fftSize : Nat := 256

/-- `frequencyBinCount` is half the FFT size, so the sampled data array has
this length. -/
def frequencyBinCount : Nat := fftSize / 2

/-- JavaScript `Math.round` on a non-negative rational: floor of `q + 1/2`. -/
def jsRound (q : ℚ) : Int := ⌊q + 1 / 2⌋

/-- The volume computed by one `tick` of `observeMicLevel`:
`data.reduce((acc, value) => acc + value, 0) / data.length`. -/
def tickVolume (data : List Nat) : ℚ :=
  ((data.foldl (fun acc value => acc + value) 0 : Nat) : ℚ) / (data.length : ℚ)

/-- One published mic-level sample: `Math.round(volume)`. -/
def micSample (data : List Nat) : Int := jsRound (tickVolume data)

/-- `destroyCall` state effect: null out every ref, stop tracks, close the
audio context, disconnect the analyser, cancel the pending frame, reset the
mic level.  Each guarded block of the source touches a distinct field, so the
sequential block is modelled as one simultaneous update. -/
def destroyCallState (s : AppState) : AppState :=
  { s with
    callRef := none
    remoteAudioSrc := none
    localStreamRef := none
    audioContextRef := none
    analyserRef := none
    animationFrameRef := none
    micLevel := 0
    subscribed :=
      match s.callRef with
      | some h => s.subscribed.erase h
      | none => s.subscribed
    pendingFrames :=
      match s.animationFrameRef with
      | some f => s.pendingFrames.erase f
      | none => s.pendingFrames }

/-- The release operations `destroyCall` performs, in source order:
`callRef.current?.close()`, `track.stop()` on the local stream,
`audioContextRef.current.close()`, `analyserRef.current.disconnect()`,
`cancelAnimationFrame`. -/
def destroyCallEvents (s : AppState) : List Event :=
  (s.callRef.toList.map Event.closeCall)
    ++ (s.localStreamRef.toList.map Event.stopTracks)
    ++ (s.audioContextRef.toList.map Event.closeAudioContext)
    ++ (s.analyserRef.toList.map Event.disconnectAnalyser)
    ++ (s.animationFrameRef.toList.map Event.cancelFrame)

/-- `destroyCall` from the source (lines 73–96). -/
def destroyCall (s : AppState) : AppState × List Event :=
  (destroyCallState s, destroyCallEvents s)

/-- `ensureLocalStream` (lines 98–146).  Returns the stream handle or the
thrown error's message; on failure the catch block has already set the
`error` status before rethrowing.  Note that when the AudioContext
constructor is missing the stream ref has already been assigned, exactly as
in the source. -/
def ensureLocalStream (env : MediaEnv) (s : AppState) :
    Except String Nat × AppState × List Event :=
  match s.localStreamRef with
  | some st => (Except.ok st, s, [])
  | none =>
    match env.gum with
    | Except.error msg =>
        (Except.error msg,
         { s with status := CallStatus.error, statusMessage := msg },
         [Event.statusSet CallStatus.error msg])
    | Except.ok _ =>
        let stream := s.nextId
        let s1 := { s with
          nextId := s.nextId + 1
          localStreamRef := some stream
          localAudioSrc := some stream }
        match s1.audioContextRef with
        | none =>
            if env.audioCtxSupported then
              let ctx := s1.nextId
              let analyser := s1.nextId + 1
              (Except.ok stream,
               { s1 with
                  nextId := s1.nextId + 2
                  audioContextRef := some ctx
                  analyserRef := some analyser },
               [])
            else
              let msg := "AudioContext is not supported in this browser."
              (Except.error msg,
               { s1 with status := CallStatus.error, statusMessage := msg },
               [Event.statusSet CallStatus.error msg])
        | some _ =>
            let analyser := s1.nextId
            (Except.ok stream,
             { s1 with nextId := s1.nextId + 1, analyserRef := some analyser },
             [])

/-- `observeMicLevel` (lines 148–165): no-op without an analyser; otherwise
cancels any pending animation frame, then runs `tick()` once synchronously,
which samples the analyser, publishes the mic level and schedules the next
frame. -/
def observeMicLevel (data : List Nat) (s : AppState) :
    AppState × List Event :=
  match s.analyserRef with
  | none => (s, [])
  | some _ =>
    let cancelled :=
      match s.animationFrameRef with
      | some f =>
          ({ s with
              animationFrameRef := none
              pendingFrames := s.pendingFrames.erase f },
           [Event.cancelFrame f])
      | none => (s, ([] : List Event))
    let s1 := cancelled.1
    let f := s1.nextId
    ({ s1 with
        micLevel := micSample data
        animationFrameRef := some f
        pendingFrames := s1.pendingFrames ++ [f]
        nextId := s1.nextId + 1 },
     cancelled.2 ++ [Event.scheduleFrame f])

/-- `registerCallHandlers` (lines 167–193): closes the previous handle (if
any), stores the new one, and attaches its stream/close/error handlers. -/
def registerCallHandlers (c : MediaConnection) (s : AppState) :
    AppState × List Event :=
  let closed :=
    match s.callRef with
    | some h =>
        ({ s with subscribed := s.subscribed.erase h }, [Event.closeCall h])
    | none => (s, ([] : List Event))
  let s1 := closed.1
  ({ s1 with callRef := some c, subscribed := s1.subscribed ++ [c] },
   closed.2 ++ [Event.registerHandlers c])

/-- The `call.on("stream")` handler (lines 172–177). -/
def onStream (c : MediaConnection) (remoteStream : Nat) (s : AppState) :
    AppState × List Event :=
  let msg := "Connected with " ++ c.peer ++ "."
  ({ s with
      remoteAudioSrc := some remoteStream
      status := CallStatus.inCall
      statusMessage := msg },
   [Event.statusSet CallStatus.inCall msg])

/-- The `call.on("close")` handler (lines 179–182). -/
def onClose (s : AppState) : AppState × List Event :=
  let s1 := { s with
    status := CallStatus.ready, statusMessage := "Call ended." }
  let d := destroyCall s1
  (d.1, Event.statusSet CallStatus.ready "Call ended." :: d.2)

/-- The `call.on("error")` handler (lines 184–190). -/
def onCallError (msg : String) (s : AppState) : AppState × List Event :=
  let s1 := { s with status := CallStatus.error, statusMessage := msg }
  let d := destroyCall s1
  (d.1, Event.statusSet CallStatus.error msg :: d.2)

/-- The `peer.on("error")` handler (lines 232–237): it only updates the
status; it does not tear anything down. -/
def onPeerError (msg : String) (s : AppState) : AppState × List Event :=
  ({ s with status := CallStatus.error, statusMessage := msg },
   [Event.statusSet CallStatus.error msg])

/-- The `peer.on("disconnected")` handler (lines 227–230). -/
def onDisconnected (s : AppState) : AppState × List Event :=
  let msg := "Connection lost. Attempting to reconnect…"
  ({ s with status := CallStatus.error, statusMessage := msg },
   [Event.statusSet CallStatus.error msg, Event.reconnect])

/-- The `peer.on("call")` auto-answer handler (lines 210–225): announce the
incoming call, acquire the local stream, start the level meter, answer with
the stream, register the handlers; any thrown failure lands in the catch
block which sets the `error` status from the failure's message. -/
def onIncomingCall (env : MediaEnv) (incoming : MediaConnection)
    (s : AppState) : AppState × List Event :=
  let msgIn := "Call incoming from " ++ incoming.peer ++ "."
  let s0 := { s with status := CallStatus.incoming, statusMessage := msgIn }
  let ev0 := [Event.statusSet CallStatus.incoming msgIn]
  match ensureLocalStream env s0 with
  | (Except.error msg, s1, evs) =>
      ({ s1 with status := CallStatus.error, statusMessage := msg },
       ev0 ++ evs ++ [Event.statusSet CallStatus.error msg])
  | (Except.ok stream, s1, evs) =>
      let obs := observeMicLevel env.analyserData s1
      let reg := registerCallHandlers incoming obs.1
      (reg.1,
       ev0 ++ evs ++ obs.2 ++ [Event.answerCall incoming stream] ++ reg.2)

/-- `placeCall` (lines 248–269). -/
def placeCall (env : MediaEnv) (s : AppState) : AppState × List Event :=
  if jsTrim s.remoteId = "" then
    let msg := "Enter a peer ID before calling."
    ({ s with status := CallStatus.error, statusMessage := msg },
     [Event.statusSet CallStatus.error msg])
  else
    match s.peerRef with
    | none =>
        let msg := "Agent not ready yet."
        ({ s with status := CallStatus.error, statusMessage := msg },
         [Event.statusSet CallStatus.error msg])
    | some _ =>
        match ensureLocalStream env s with
        | (Except.error msg, s1, evs) =>
            ({ s1 with status := CallStatus.error, statusMessage := msg },
             evs ++ [Event.statusSet CallStatus.error msg])
        | (Except.ok stream, s1, evs) =>
            let obs := observeMicLevel env.analyserData s1
            let s2 := obs.1
            let msgCalling := "Calling " ++ s.remoteId ++ "…"
            let s3 := { s2 with
              status := CallStatus.calling, statusMessage := msgCalling }
            let call : MediaConnection :=
              { hid := s3.nextId, peer := jsTrim s.remoteId }
            let s4 := { s3 with nextId := s3.nextId + 1 }
            let reg := registerCallHandlers call s4
            (reg.1,
             evs ++ obs.2
               ++ [Event.statusSet CallStatus.calling msgCalling,
                   Event.transportCall (jsTrim s.remoteId) stream call]
               ++ reg.2)

/-- `endCall` (lines 271–276): close and null the call handle, run
`destroyCall`, then unconditionally report `ready` / "Call ended.". -/
def endCall (s : AppState) : AppState × List Event :=
  let closed :=
    match s.callRef with
    | some h =>
        ({ s with
            callRef := none
            subscribed := s.subscribed.erase h },
         [Event.closeCall h])
    | none => ({ s with callRef := none }, ([] : List Event))
  let d := destroyCall closed.1
  ({ d.1 with
      status := CallStatus.ready, statusMessage := "Call ended." },
   closed.2 ++ d.2 ++ [Event.statusSet CallStatus.ready "Call ended."])

/-- Iterated `observeMicLevel` over successive analyser reads. -/
def observeSeq (reads : List (List Nat)) (s : AppState) : AppState :=
  reads.foldl (fun st d => (observeMicLevel d st).1) s

/-- The scheduled-frame bookkeeping agrees with the ref: the outstanding
animation-frame callbacks are exactly the one held in `animationFrameRef`. -/
def framesOk (s : AppState) : Prop :=
  s.pendingFrames = s.animationFrameRef.toList

instance (s : AppState) : Decidable (framesOk s) := by
  unfold framesOk; infer_instance

/-- A baseline state used by concrete witnesses: fresh page, transport open,
no call or media resources held. -/
def demoReady : AppState :=
  { callRef := none
    localStreamRef := none
    audioContextRef := none
    analyserRef := none
    animationFrameRef := none
    peerRef := some 1
    remoteId := ""
    status := CallStatus.ready
    statusMessage := "Share your agent ID or dial a peer to connect."
    micLevel := 0
    remoteAudioSrc := none
    localAudioSrc := none
    subscribed := []
    pendingFrames := []
    nextId := 2 }

/-- An environment where media acquisition succeeds and the analyser reads
silence. -/
def demoEnv : MediaEnv :=
  { gum := Except.ok ()
    audioCtxSupported := true
    analyserData := List.replicate frequencyBinCount 0 }

/-! ### Helper lemmas -/

theorem foldl_add_acc (l : List Nat) :
    ∀ b : Nat, List.foldl (fun acc value => acc + value) b l = b + l.sum := by
  induction l with
  | nil => intro b; simp
  | cons a t ih => intro b; simp [List.foldl_cons, ih, Nat.add_assoc]

/-- The reduce of one `tick` is the arithmetic mean of the read values. -/
theorem tickVolume_eq_mean (data : List Nat) :
    tickVolume data = ((data.sum : Nat) : ℚ) / ((data.length : Nat) : ℚ) := by
  rw [tickVolume, foldl_add_acc]
  norm_num

/-- `observeMicLevel` only touches the frame scheduler: every event it emits
is a frame cancellation or a frame scheduling. -/
theorem observeMicLevel_events_frames (d : List Nat) (s : AppState) :
    ∀ e ∈ (observeMicLevel d s).2,
      (∃ f, e = Event.cancelFrame f) ∨ (∃ f, e = Event.scheduleFrame f) := by
  cases ha : s.analyserRef with
  | none => simp [observeMicLevel, ha]
  | some a =>
    cases hf : s.animationFrameRef with
    | none =>
      simp [observeMicLevel, ha, hf]
    | some f =>
      intro e he
      simp [observeMicLevel, ha, hf] at he
      rcases he with h | h
      · exact Or.inl ⟨f, h⟩
      · exact Or.inr ⟨_, h⟩

/-- `registerCallHandlers` only closes the superseded handle and registers
the new one. -/
theorem registerCallHandlers_events (c : MediaConnection) (s : AppState) :
    ∀ e ∈ (registerCallHandlers c s).2,
      (∃ h, e = Event.closeCall h) ∨ e = Event.registerHandlers c := by
  cases hc : s.callRef with
  | none => simp [registerCallHandlers, hc]
  | some h =>
    intro e he
    simp [registerCallHandlers, hc] at he
    rcases he with h1 | h1
    · exact Or.inl ⟨h, h1⟩
    · exact Or.inr h1

theorem registerCallHandlers_status (c : MediaConnection) (s : AppState) :
    (registerCallHandlers c s).1.status = s.status := by
  cases hc : s.callRef <;> simp [registerCallHandlers, hc]

/-- When `getUserMedia` succeeds and an `AudioContext` constructor exists,
`ensureLocalStream` succeeds and performs no status update. -/
theorem ensureLocalStream_ok (env : MediaEnv) (s : AppState)
    (hg : env.gum = Except.ok ()) (hc : env.audioCtxSupported = true) :
    ∃ stream s1, ensureLocalStream env s = (Except.ok stream, s1, []) := by
  cases hls : s.localStreamRef with
  | some st =>
    exact ⟨st, s, by simp [ensureLocalStream, hls]⟩
  | none =>
    cases hac : s.audioContextRef with
    | none =>
      simp only [ensureLocalStream, hls, hg, hac, hc, if_true]
      exact ⟨_, _, rfl⟩
    | some ctx =>
      simp only [ensureLocalStream, hls, hg, hac]
      exact ⟨_, _, rfl⟩

/-- Every event `ensureLocalStream` emits is an `error` status update. -/
theorem ensureLocalStream_events (env : MediaEnv) (s : AppState) :
    ∀ e ∈ (ensureLocalStream env s).2.2, ∃ m, e = Event.statusSet CallStatus.error m := by
  cases hls : s.localStreamRef with
  | some st => simp [ensureLocalStream, hls]
  | none =>
    cases hg : env.gum with
    | error msg => simp [ensureLocalStream, hls, hg]
    | ok u =>
      cases hac : s.audioContextRef with
      | none =>
        cases hc : env.audioCtxSupported with
        | false => simp [ensureLocalStream, hls, hg, hac, hc]
        | true => simp [ensureLocalStream, hls, hg, hac, hc]
      | some ctx => simp [ensureLocalStream, hls, hg, hac]

/-! ### C1: a new call handle supersedes the old one -/

/-- C1.  Registering a new call (outbound or inbound-answer) while a
previous call handle exists first closes the previous transport call handle,
and only then registers the new handle's stream/close/error handlers; under
the at-most-one-subscription invariant, the new handle is afterwards the
only subscribed one. -/
theorem C1_register_closes_previous (c h : MediaConnection) (s : AppState)
    (hcall : s.callRef = some h)
    (hsub : s.subscribed = s.callRef.toList) :
    (registerCallHandlers c s).2
        = [Event.closeCall h, Event.registerHandlers c] ∧
      (registerCallHandlers c s).1.callRef = some c ∧
      (registerCallHandlers c s).1.subscribed = [c] ∧
      (registerCallHandlers c s).1.subscribed.length ≤ 1 := by
  rw [hcall] at hsub
  simp only [Option.toList_some] at hsub
  refine ⟨?_, ?_, ?_, ?_⟩ <;>
    simp [registerCallHandlers, hcall, hsub, List.erase_cons_head]

/-- Witness for C1 at a concrete state holding an open call. -/
theorem C1_witness :
    (registerCallHandlers ⟨9, "agentic-new0-peer"⟩
        { demoReady with
            callRef := some ⟨7, "agentic-old0-peer"⟩
            subscribed := [⟨7, "agentic-old0-peer"⟩] }).2
      = [Event.closeCall ⟨7, "agentic-old0-peer"⟩,
         Event.registerHandlers ⟨9, "agentic-new0-peer"⟩] :=
  (C1_register_closes_previous ⟨9, "agentic-new0-peer"⟩ ⟨7, "agentic-old0-peer"⟩
    { demoReady with
        callRef := some ⟨7, "agentic-old0-peer"⟩
        subscribed := [⟨7, "agentic-old0-peer"⟩] }
    (by decide) (by decide)).1

/-! ### C3: blank remote identifier fails fast -/

/-- C3.  For a remote identifier that is empty or whitespace-only,
`placeCall` only sets the `error` status with its message: the transport's
call operation is never invoked and no session side effect occurs (the
result state differs from the input state in the status fields alone, and
the only emitted event is the status update). -/
theorem C3_placeCall_blank (env : MediaEnv) (s : AppState)
    (h : jsTrim s.remoteId = "") :
    placeCall env s =
      ({ s with
          status := CallStatus.error
          statusMessage := "Enter a peer ID before calling." },
       [Event.statusSet CallStatus.error "Enter a peer ID before calling."]) := by
  simp [placeCall, h]

/-- Witness for C3 on a whitespace-only dial string. -/
theorem C3_witness :
    placeCall demoEnv { demoReady with remoteId := "   " } =
      ({ demoReady with
          remoteId := "   "
          status := CallStatus.error
          statusMessage := "Enter a peer ID before calling." },
       [Event.statusSet CallStatus.error "Enter a peer ID before calling."]) :=
  C3_placeCall_blank demoEnv { demoReady with remoteId := "   " } (by decide)

/-! ### C4: teardown is idempotent and total -/

/-- C4.  `destroyCall` is total (a pure function) and idempotent: a second
teardown changes nothing and releases nothing; after any teardown the mic
level is 0 and every resource reference is cleared; a held local stream has
its tracks stopped; and a teardown when nothing was ever acquired releases
nothing. -/
theorem C4_destroyCall_idempotent (s : AppState) :
    (destroyCall (destroyCall s).1).1 = (destroyCall s).1 ∧
      (destroyCall (destroyCall s).1).2 = [] ∧
      (destroyCall s).1.micLevel = 0 ∧
      (destroyCall s).1.callRef = none ∧
      (destroyCall s).1.localStreamRef = none ∧
      (destroyCall s).1.audioContextRef = none ∧
      (destroyCall s).1.analyserRef = none ∧
      (destroyCall s).1.animationFrameRef = none ∧
      (∀ st, s.localStreamRef = some st →
        Event.stopTracks st ∈ (destroyCall s).2) ∧
      (s.callRef = none → s.localStreamRef = none →
        s.audioContextRef = none → s.analyserRef = none →
        s.animationFrameRef = none → (destroyCall s).2 = []) := by
  refine ⟨?_, ?_, ?_, ?_, ?_, ?_, ?_, ?_, ?_, ?_⟩
  · simp [destroyCall, destroyCallState]
  · simp [destroyCall, destroyCallEvents, destroyCallState]
  · simp [destroyCall, destroyCallState]
  · simp [destroyCall, destroyCallState]
  · simp [destroyCall, destroyCallState]
  · simp [destroyCall, destroyCallState]
  · simp [destroyCall, destroyCallState]
  · simp [destroyCall, destroyCallState]
  · intro st hst
    simp [destroyCall, destroyCallEvents, hst]
  · intro h1 h2 h3 h4 h5
    simp [destroyCall, destroyCallEvents, h1, h2, h3, h4, h5]

/-- Witness for C4 at a state holding every resource. -/
theorem C4_witness :
    (destroyCall (destroyCall
        { demoReady with
            callRef := some ⟨7, "agentic-old0-peer"⟩
            localStreamRef := some 3
            audioContextRef := some 4
            analyserRef := some 5
            animationFrameRef := some 6
            subscribed := [⟨7, "agentic-old0-peer"⟩]
            pendingFrames := [6]
            micLevel := 42 }).1).2 = [] ∧
    Event.stopTracks 3 ∈ (destroyCall
        { demoReady with
            callRef := some ⟨7, "agentic-old0-peer"⟩
            localStreamRef := some 3
            audioContextRef := some 4
            analyserRef := some 5
            animationFrameRef := some 6
            subscribed := [⟨7, "agentic-old0-peer"⟩]
            pendingFrames := [6]
            micLevel := 42 }).2 :=
  ⟨(C4_destroyCall_idempotent _).2.1,
   (C4_destroyCall_idempotent
      { demoReady with
          callRef := some ⟨7, "agentic-old0-peer"⟩
          localStreamRef := some 3
          audioContextRef := some 4
          analyserRef := some 5
          animationFrameRef := some 6
          subscribed := [⟨7, "agentic-old0-peer"⟩]
          pendingFrames := [6]
          micLevel := 42 }).2.2.2.2.2.2.2.2.1 3 rfl⟩

/-! ### C6: endCall with no open session -/

/-- A concrete state with no open session and a surfaced error status. -/
def demoNoSession : AppState :=
  { demoReady with
      status := CallStatus.error
      statusMessage := "peer unavailable" }

/-- C6 counterexample.  With no open session (no call handle, no resources),
`endCall` does not leave the status and status message unchanged: the source
unconditionally reports `ready` / "Call ended.", overwriting the prior
`error` status. -/
theorem C6_counterexample :
    (endCall demoNoSession).1.status ≠ demoNoSession.status ∧
      (endCall demoNoSession).1.statusMessage ≠ demoNoSession.statusMessage := by
  refine ⟨?_, ?_⟩ <;> decide

/-- C6 as amended.  Calling `endCall` when no call session is open and no
resource is held throws no error and releases nothing (the only emitted
event is the status update), but it is not a strict no-op: it still sets the
status to `ready` with "Call ended." and resets the mic level to 0; all
resource references stay cleared. -/
theorem C6_endCall_no_session (s : AppState)
    (h1 : s.callRef = none) (h2 : s.localStreamRef = none)
    (h3 : s.audioContextRef = none) (h4 : s.analyserRef = none)
    (h5 : s.animationFrameRef = none) :
    endCall s =
      ({ s with
          status := CallStatus.ready
          statusMessage := "Call ended."
          micLevel := 0
          remoteAudioSrc := none },
       [Event.statusSet CallStatus.ready "Call ended."]) := by
  cases s
  simp_all [endCall, destroyCall, destroyCallState, destroyCallEvents]

/-- Witness for C6 as amended. -/
theorem C6_witness :
    endCall demoNoSession =
      ({ demoNoSession with
          status := CallStatus.ready
          statusMessage := "Call ended."
          micLevel := 0
          remoteAudioSrc := none },
       [Event.statusSet CallStatus.ready "Call ended."]) :=
  C6_endCall_no_session demoNoSession rfl rfl rfl rfl rfl

/-! ### C7: what the two error handlers tear down -/

/-- A concrete state in the middle of a live call, holding every resource. -/
def demoLive : AppState :=
  { demoReady with
      callRef := some ⟨7, "agentic-ab12-cd34"⟩
      localStreamRef := some 3
      audioContextRef := some 4
      analyserRef := some 5
      animationFrameRef := some 6
      subscribed := [⟨7, "agentic-ab12-cd34"⟩]
      pendingFrames := [6]
      status := CallStatus.inCall
      statusMessage := "Connected with agentic-ab12-cd34."
      micLevel := 42 }

/-- C7 counterexample.  On a transport-level peer error during a live call,
the `peer.on("error")` handler updates only the status: the call handle, the
local stream, the audio context and the analyser are all retained, so prior
call state is not discarded on every error event. -/
theorem C7_counterexample :
    (onPeerError "Unexpected peer error." demoLive).1.callRef
        = some ⟨7, "agentic-ab12-cd34"⟩ ∧
      (onPeerError "Unexpected peer error." demoLive).1.localStreamRef = some 3 ∧
      (onPeerError "Unexpected peer error." demoLive).1.audioContextRef = some 4 ∧
      (onPeerError "Unexpected peer error." demoLive).1.analyserRef = some 5 := by
  refine ⟨?_, ?_, ?_, ?_⟩ <;> decide

/-- C7 as amended.  Every error event makes the status show the latest error
message.  Call-level errors additionally discard the prior call state (call
handle, local stream, audio context and analyser are torn down), but
transport-level peer errors leave all call resources untouched. -/
theorem C7_error_handlers (msg : String) (s : AppState) :
    (onPeerError msg s).1.status = CallStatus.error ∧
      (onPeerError msg s).1.statusMessage = msg ∧
      (onPeerError msg s).1.callRef = s.callRef ∧
      (onPeerError msg s).1.localStreamRef = s.localStreamRef ∧
      (onPeerError msg s).1.audioContextRef = s.audioContextRef ∧
      (onPeerError msg s).1.analyserRef = s.analyserRef ∧
      (onCallError msg s).1.status = CallStatus.error ∧
      (onCallError msg s).1.statusMessage = msg ∧
      (onCallError msg s).1.callRef = none ∧
      (onCallError msg s).1.localStreamRef = none ∧
      (onCallError msg s).1.audioContextRef = none ∧
      (onCallError msg s).1.analyserRef = none ∧
      (onCallError msg s).1.animationFrameRef = none ∧
      (onCallError msg s).1.micLevel = 0 := by
  refine ⟨?_, ?_, ?_, ?_, ?_, ?_, ?_, ?_, ?_, ?_, ?_, ?_, ?_, ?_⟩ <;>
    simp [onPeerError, onCallError, destroyCall, destroyCallState]

/-! ### C5: inbound acquisition failure never answers -/

/-- C5.  For an inbound call, if acquiring the local media stream fails, the
inbound call handle's `answer` is never invoked and the status carries the
failure's message; and in general an `answer` is only ever performed with
the stream that `ensureLocalStream` successfully returned. -/
theorem C5_incoming_failure_no_answer (env : MediaEnv) (ic : MediaConnection)
    (s : AppState) (m : String)
    (hs : s.localStreamRef = none)
    (hg : env.gum = Except.error m) :
    (∀ c stream, Event.answerCall c stream ∉ (onIncomingCall env ic s).2) ∧
      (onIncomingCall env ic s).1.status = CallStatus.error ∧
      (onIncomingCall env ic s).1.statusMessage = m ∧
      (∀ env2 stream s1 evs,
        ensureLocalStream env2
            { s with
                status := CallStatus.incoming
                statusMessage := "Call incoming from " ++ ic.peer ++ "." }
          = (Except.ok stream, s1, evs) →
        Event.answerCall ic stream ∈ (onIncomingCall env2 ic s).2) := by
  refine ⟨?_, ?_, ?_, ?_⟩
  · intro c stream
    simp [onIncomingCall, ensureLocalStream, hs, hg]
  · simp [onIncomingCall, ensureLocalStream, hs, hg]
  · simp [onIncomingCall, ensureLocalStream, hs, hg]
  · intro env2 stream s1 evs hE
    simp [onIncomingCall, hE]

/-- Witness for C5: microphone permission denied on a fresh inbound call. -/
theorem C5_witness :
    (∀ c stream,
      Event.answerCall c stream ∉
        (onIncomingCall
          { gum := Except.error "Permission denied", audioCtxSupported := true,
            analyserData := [] }
          ⟨8, "agentic-ca11-er00"⟩ demoReady).2) ∧
      (onIncomingCall
          { gum := Except.error "Permission denied", audioCtxSupported := true,
            analyserData := [] }
          ⟨8, "agentic-ca11-er00"⟩ demoReady).1.statusMessage
        = "Permission denied" :=
  ⟨(C5_incoming_failure_no_answer
      { gum := Except.error "Permission denied", audioCtxSupported := true,
        analyserData := [] }
      ⟨8, "agentic-ca11-er00"⟩ demoReady "Permission denied" rfl rfl).1,
   (C5_incoming_failure_no_answer
      { gum := Except.error "Permission denied", audioCtxSupported := true,
        analyserData := [] }
      ⟨8, "agentic-ca11-er00"⟩ demoReady "Permission denied" rfl rfl).2.2.1⟩

/-! ### C8: at most one outstanding sampling frame -/

theorem observeMicLevel_framesOk (d : List Nat) (s : AppState)
    (h : framesOk s) : framesOk (observeMicLevel d s).1 := by
  unfold framesOk at h ⊢
  cases ha : s.analyserRef with
  | none => simpa [observeMicLevel, ha] using h
  | some a =>
    cases hf : s.animationFrameRef with
    | none =>
      rw [hf] at h
      simp [observeMicLevel, ha, hf, h]
    | some f =>
      rw [hf] at h
      simp [observeMicLevel, ha, hf, h, List.erase_cons_head]

theorem observeSeq_framesOk (reads : List (List Nat)) :
    ∀ s : AppState, framesOk s → framesOk (observeSeq reads s) := by
  induction reads with
  | nil => intro s h; exact h
  | cons r rs ih =>
    intro s h
    have hstep : framesOk (observeMicLevel r s).1 :=
      observeMicLevel_framesOk r s h
    simpa [observeSeq, List.foldl_cons] using ih _ hstep

/-- C8.  The frame-scheduling bookkeeping invariant (the outstanding
animation-frame callbacks are exactly the one held in the ref) is preserved
by any number of consecutive `observeMicLevel` calls, so at most one frame
callback is outstanding at any time; moreover a call made while a frame is
pending cancels that frame before scheduling the new one. -/
theorem C8_single_sampling_loop (reads : List (List Nat)) (d : List Nat)
    (s : AppState) (h : framesOk s) :
    framesOk (observeSeq reads s) ∧
      (observeSeq reads s).pendingFrames.length ≤ 1 ∧
      (∀ f, s.animationFrameRef = some f → s.analyserRef.isSome = true →
        ∃ f2, (observeMicLevel d s).2
          = [Event.cancelFrame f, Event.scheduleFrame f2]) := by
  have hseq := observeSeq_framesOk reads s h
  refine ⟨hseq, ?_, ?_⟩
  · rw [framesOk] at hseq
    rw [hseq]
    cases (observeSeq reads s).animationFrameRef <;> simp
  · intro f hf hsome
    rcases Option.isSome_iff_exists.mp hsome with ⟨a, ha⟩
    exact ⟨s.nextId, by simp [observeMicLevel, ha, hf]⟩

/-- Witness for C8: two consecutive restarts from a live call that already
has a pending frame. -/
theorem C8_witness :
    (observeSeq [List.replicate frequencyBinCount 0,
        List.replicate frequencyBinCount 0] demoLive).pendingFrames.length ≤ 1 ∧
      ∃ f2, (observeMicLevel (List.replicate frequencyBinCount 0) demoLive).2
        = [Event.cancelFrame 6, Event.scheduleFrame f2] :=
  ⟨(C8_single_sampling_loop
      [List.replicate frequencyBinCount 0, List.replicate frequencyBinCount 0]
      (List.replicate frequencyBinCount 0) demoLive (by decide)).2.1,
   (C8_single_sampling_loop
      [List.replicate frequencyBinCount 0, List.replicate frequencyBinCount 0]
      (List.replicate frequencyBinCount 0) demoLive (by decide)).2.2 6 rfl rfl⟩

/-! ### C9: the published mic-level sample -/

/-- C9 counterexample.  A legitimate full-scale analyser read (every one of
the 128 frequency bins at the byte maximum 255) produces the sample 255,
which is far outside a 0–100 range. -/
theorem C9_counterexample :
    micSample (List.replicate frequencyBinCount 255) = 255 ∧
      ¬ micSample (List.replicate frequencyBinCount 255) ≤ 100 := by
  have hfold : List.foldl (fun acc value => acc + value) 0
      (List.replicate frequencyBinCount 255) = 32640 := by
    set_option maxRecDepth 4000 in decide
  have h255 : micSample (List.replicate frequencyBinCount 255) = 255 := by
    rw [micSample, tickVolume, hfold, jsRound]
    rw [Int.floor_eq_iff]
    norm_num [frequencyBinCount, fftSize]
  exact ⟨h255, by rw [h255]; decide⟩

/-- C9 as amended.  Each published sample is the arithmetic mean of the
magnitudes across the frequency bins of one analyser read, rounded to the
nearest integer (JavaScript `Math.round`), and the samples lie in the byte
range 0–255 (not 0–100: the presentation layer rescales by 1.5 and caps at
100 separately). -/
theorem C9_micSample_mean (data : List Nat)
    (hlen : data.length = frequencyBinCount)
    (hv : ∀ v ∈ data, v ≤ 255) :
    micSample data = jsRound (((data.sum : Nat) : ℚ) / ((data.length : Nat) : ℚ)) ∧
      0 ≤ micSample data ∧ micSample data ≤ 255 := by
  have hmean : micSample data
      = jsRound (((data.sum : Nat) : ℚ) / ((data.length : Nat) : ℚ)) := by
    rw [micSample, tickVolume_eq_mean]
  have hq0 : (0 : ℚ) ≤ ((data.sum : Nat) : ℚ) / ((data.length : Nat) : ℚ) :=
    div_nonneg (by positivity) (by positivity)
  have hlen128 : (data.length : ℚ) = 128 := by
    rw [hlen]; norm_num [frequencyBinCount, fftSize]
  have hsum : (data.sum : ℚ) ≤ 255 * (data.length : ℚ) := by
    have hs : data.sum ≤ data.length * 255 := by
      calc data.sum ≤ data.length • 255 := List.sum_le_card_nsmul data 255 hv
        _ = data.length * 255 := by simp [smul_eq_mul]
    calc (data.sum : ℚ) ≤ ((data.length * 255 : Nat) : ℚ) := by exact_mod_cast hs
      _ = 255 * (data.length : ℚ) := by push_cast; ring
  have hqle : ((data.sum : Nat) : ℚ) / ((data.length : Nat) : ℚ) ≤ 255 := by
    rw [div_le_iff₀ (by rw [hlen128]; norm_num)]
    linarith
  refine ⟨hmean, ?_, ?_⟩
  · rw [hmean, jsRound]
    refine Int.le_floor.mpr ?_
    have h0 : ((0 : ℤ) : ℚ) = 0 := by norm_num
    rw [h0]
    linarith
  · rw [hmean, jsRound]
    have hlt : ((data.sum : Nat) : ℚ) / ((data.length : Nat) : ℚ) + 1 / 2
        < ((256 : ℤ) : ℚ) := by
      have h256 : ((256 : ℤ) : ℚ) = 256 := by norm_num
      rw [h256]
      linarith
    have hfl := Int.floor_lt.mpr hlt
    omega

/-- Witness for C9 as amended: a silent read publishes sample 0. -/
theorem C9_witness :
    micSample (List.replicate frequencyBinCount 0)
        = jsRound (((List.replicate frequencyBinCount 0).sum : Nat) /
            (((List.replicate frequencyBinCount 0).length : Nat) : ℚ)) ∧
      0 ≤ micSample (List.replicate frequencyBinCount 0) ∧
      micSample (List.replicate frequencyBinCount 0) ≤ 255 :=
  C9_micSample_mean (List.replicate frequencyBinCount 0)
    (by simp) (by simp)

/-! ### C2 and C10: the success path of placeCall -/

theorem no_statusSet_of_frames {l : List Event}
    (hl : ∀ e ∈ l, (∃ f, e = Event.cancelFrame f) ∨ (∃ f, e = Event.scheduleFrame f)) :
    ∀ st m, Event.statusSet st m ∉ l := by
  intro st m hm
  rcases hl _ hm with ⟨f, h⟩ | ⟨f, h⟩ <;> simp at h

theorem no_transportCall_of_frames {l : List Event}
    (hl : ∀ e ∈ l, (∃ f, e = Event.cancelFrame f) ∨ (∃ f, e = Event.scheduleFrame f)) :
    ∀ r str c, Event.transportCall r str c ∉ l := by
  intro r str c hm
  rcases hl _ hm with ⟨f, h⟩ | ⟨f, h⟩ <;> simp at h

theorem no_statusSet_of_register {c : MediaConnection} {l : List Event}
    (hl : ∀ e ∈ l, (∃ h, e = Event.closeCall h) ∨ e = Event.registerHandlers c) :
    ∀ st m, Event.statusSet st m ∉ l := by
  intro st m hm
  rcases hl _ hm with ⟨h, h1⟩ | h1 <;> simp at h1

theorem no_transportCall_of_register {c : MediaConnection} {l : List Event}
    (hl : ∀ e ∈ l, (∃ h, e = Event.closeCall h) ∨ e = Event.registerHandlers c) :
    ∀ r str c2, Event.transportCall r str c2 ∉ l := by
  intro r str c2 hm
  rcases hl _ hm with ⟨h, h1⟩ | h1 <;> simp at h1

/-- On the success path (non-blank dial string, transport ready, microphone
granted, audio supported), the trace of `placeCall` is: frame bookkeeping,
then the `calling` status update, then — immediately after — the transport
call with the trimmed identifier, then handler (re)registration. -/
theorem placeCall_success_shape (env : MediaEnv) (s : AppState)
    (hr : ¬ jsTrim s.remoteId = "")
    (hp : s.peerRef.isSome = true)
    (hg : env.gum = Except.ok ())
    (hc : env.audioCtxSupported = true) :
    ∃ pre stream c post,
      (placeCall env s).2
          = pre
              ++ Event.statusSet CallStatus.calling
                    ("Calling " ++ s.remoteId ++ "…")
                :: Event.transportCall (jsTrim s.remoteId) stream c :: post ∧
        c.peer = jsTrim s.remoteId ∧
        (∀ st m, Event.statusSet st m ∉ pre) ∧
        (∀ st m, Event.statusSet st m ∉ post) ∧
        (∀ r str c2, Event.transportCall r str c2 ∉ pre) ∧
        (∀ r str c2, Event.transportCall r str c2 ∉ post) ∧
        (placeCall env s).1.status = CallStatus.calling := by
  rcases Option.isSome_iff_exists.mp hp with ⟨p, hps⟩
  rcases ensureLocalStream_ok env s hg hc with ⟨stream, s1, hE⟩
  have hreg : ∀ c2 s2, (registerCallHandlers c2 s2).1.status = s2.status :=
    registerCallHandlers_status
  refine ⟨(observeMicLevel env.analyserData s1).2, stream,
    ⟨(observeMicLevel env.analyserData s1).1.nextId, jsTrim s.remoteId⟩,
    (registerCallHandlers
      ⟨(observeMicLevel env.analyserData s1).1.nextId, jsTrim s.remoteId⟩
      { (observeMicLevel env.analyserData s1).1 with
          status := CallStatus.calling
          statusMessage := "Calling " ++ s.remoteId ++ "…"
          nextId := (observeMicLevel env.analyserData s1).1.nextId + 1 }).2,
    ?_, rfl,
    no_statusSet_of_frames (observeMicLevel_events_frames env.analyserData s1),
    no_statusSet_of_register (registerCallHandlers_events _ _),
    no_transportCall_of_frames (observeMicLevel_events_frames env.analyserData s1),
    no_transportCall_of_register (registerCallHandlers_events _ _), ?_⟩
  · simp only [placeCall, if_neg hr, hps, hE, List.nil_append]
    simp [List.append_assoc]
  · simp only [placeCall, if_neg hr, hps, hE]
    rw [hreg]

/-- C2.  For a valid non-empty remote identifier, `placeCall` performs the
`calling` status update strictly before the transport's call operation (no
other status update occurs in its trace), ends with status `calling`, never
produces an `in-call` status itself, and `in-call` arises only as the effect
of the remote-stream handler. -/
theorem C2_calling_before_transport (env : MediaEnv) (s : AppState)
    (hr : ¬ jsTrim s.remoteId = "")
    (hp : s.peerRef.isSome = true)
    (hg : env.gum = Except.ok ())
    (hc : env.audioCtxSupported = true) :
    (∃ pre stream c post,
        (placeCall env s).2
            = pre
                ++ Event.statusSet CallStatus.calling
                      ("Calling " ++ s.remoteId ++ "…")
                  :: Event.transportCall (jsTrim s.remoteId) stream c :: post ∧
          (∀ st m, Event.statusSet st m ∉ pre) ∧
          (∀ r str c2, Event.transportCall r str c2 ∉ pre)) ∧
      (placeCall env s).1.status = CallStatus.calling ∧
      (∀ m, Event.statusSet CallStatus.inCall m ∉ (placeCall env s).2) ∧
      (∀ c2 rs s2, (onStream c2 rs s2).1.status = CallStatus.inCall) := by
  rcases placeCall_success_shape env s hr hp hg hc with
    ⟨pre, stream, c, post, htr, hcp, hpre, hpost, hpre2, hpost2, hstat⟩
  refine ⟨⟨pre, stream, c, post, htr, hpre, hpre2⟩, hstat, ?_, ?_⟩
  · intro m hm
    rw [htr] at hm
    rcases List.mem_append.mp hm with h | h
    · exact hpre _ _ h
    · rcases List.mem_cons.mp h with h1 | h2
      · simp at h1
      · rcases List.mem_cons.mp h2 with h3 | h4
        · simp at h3
        · exact hpost _ _ h4
  · intro c2 rs s2
    simp [onStream]

/-- Witness for C2: dialing a padded but valid identifier from the ready
state leaves `placeCall` in `calling`, with no `in-call` status in its
trace. -/
theorem C2_witness :
    (placeCall demoEnv { demoReady with remoteId := " agentic-ab12-cd34 " }).1.status
        = CallStatus.calling ∧
      ∀ m, Event.statusSet CallStatus.inCall m ∉
        (placeCall demoEnv { demoReady with remoteId := " agentic-ab12-cd34 " }).2 :=
  ⟨(C2_calling_before_transport demoEnv
      { demoReady with remoteId := " agentic-ab12-cd34 " }
      (by decide) (by decide) rfl rfl).2.1,
   (C2_calling_before_transport demoEnv
      { demoReady with remoteId := " agentic-ab12-cd34 " }
      (by decide) (by decide) rfl rfl).2.2.1⟩

/-- C10.  For a remote identifier with some non-whitespace content, the
transport's call operation receives exactly the whitespace-trimmed
identifier (every transport call in the trace carries the trimmed string,
and the created handle's peer is the trimmed string), while the `calling`
status message embeds the untrimmed input. -/
theorem C10_transport_gets_trimmed (env : MediaEnv) (s : AppState)
    (hr : ¬ jsTrim s.remoteId = "")
    (hp : s.peerRef.isSome = true)
    (hg : env.gum = Except.ok ())
    (hc : env.audioCtxSupported = true) :
    ∃ stream c,
      Event.transportCall (jsTrim s.remoteId) stream c ∈ (placeCall env s).2 ∧
        c.peer = jsTrim s.remoteId ∧
        Event.statusSet CallStatus.calling ("Calling " ++ s.remoteId ++ "…")
          ∈ (placeCall env s).2 ∧
        ∀ r str c2, Event.transportCall r str c2 ∈ (placeCall env s).2 →
          r = jsTrim s.remoteId := by
  rcases placeCall_success_shape env s hr hp hg hc with
    ⟨pre, stream, c, post, htr, hcp, hpre, hpost, hpre2, hpost2, hstat⟩
  refine ⟨stream, c, ?_, hcp, ?_, ?_⟩
  · rw [htr]
    simp
  · rw [htr]
    simp
  · intro r str c2 hm
    rw [htr] at hm
    rcases List.mem_append.mp hm with h | h
    · exact absurd h (hpre2 _ _ _)
    · rcases List.mem_cons.mp h with h1 | h2
      · simp at h1
      · rcases List.mem_cons.mp h2 with h3 | h4
        · exact (Event.transportCall.injEq _ _ _ _ _ _).mp h3 |>.1
        · exact absurd h4 (hpost2 _ _ _)

/-- Witness for C10: the padded dial string " agentic-ab12-cd34 " reaches
the transport trimmed, while the status message keeps the padding. -/
theorem C10_witness :
    jsTrim " agentic-ab12-cd34 " = "agentic-ab12-cd34" ∧
      ∃ stream c,
        Event.transportCall (jsTrim " agentic-ab12-cd34 ") stream c
            ∈ (placeCall demoEnv
                { demoReady with remoteId := " agentic-ab12-cd34 " }).2 ∧
          Event.statusSet CallStatus.calling "Calling  agentic-ab12-cd34 …"
            ∈ (placeCall demoEnv
                { demoReady with remoteId := " agentic-ab12-cd34 " }).2 := by
  refine ⟨by decide, ?_⟩
  rcases C10_transport_gets_trimmed demoEnv
      { demoReady with remoteId := " agentic-ab12-cd34 " }
      (by decide) (by decide) rfl rfl with ⟨stream, c, h1, h2, h3, h4⟩
  exact ⟨stream, c, h1, h3⟩

end VoicePage
